import Mathlib

/-!
Verification development for the smart-switch tariff-scraper repository.

The Python sources are shallowly embedded here:
  * page texts are Lean `String`s;
  * Python `float` values produced by `float(...)` on decimal literals are
    modelled as exact decimal fractions (`Dec`); every comparison performed by
    the code on such values agrees with the exact comparison for the inputs
    considered;
  * Python `re.search` over the pattern subset actually used by the sources is
    implemented by a small backtracking engine (`RE`, `mres`, `research`) with
    Python's leftmost-then-backtracking-priority semantics;
  * dictionaries of extracted fields become structures with `Option` fields;
  * browser effects are abstracted into oracle functions (which address
    "works", whether an attempt succeeds, the jitter drawn by `randint`),
    while all decision logic is embedded faithfully.

Case-insensitive matching (`re.I`) is modelled with ASCII `Char.toLower`,
which agrees with Python on every input appearing in this development.
-/

namespace SmartSwitch

/-- Python whitespace class `\s` (ASCII part, which is all the sources use). -/
def pyWs (c : Char) : Bool :=
  c = ' ' || c = '\t' || c = '\n' || c = '\r' || c = '\x0b' || c = '\x0c'

/-- Python `str.lower()` restricted to ASCII, as used on the page texts. -/
def lowerStr (s : String) : String := String.mk (s.data.map Char.toLower)

/-- Case-insensitive character comparison used for `re.I` matching. -/
def ciEq (a b : Char) : Bool := a.toLower = b.toLower

/-- Case-insensitive test that `pat` is a prefix of `cs`. -/
def ciPfx : List Char → List Char → Bool
  | [], _ => true
  | _ :: _, [] => false
  | a :: as, b :: bs => ciEq a b && ciPfx as bs

/-- Case-sensitive test that `pat` is a prefix of `cs`. -/
def csPfx : List Char → List Char → Bool
  | [], _ => true
  | _ :: _, [] => false
  | a :: as, b :: bs => (a = b : Bool) && csPfx as bs

/-- Substring test on character lists (Python's `needle in hay`). -/
def subList : List Char → List Char → Bool
  | n, [] => csPfx n []
  | n, h :: t => csPfx n (h :: t) || subList n t

/-- Python's `needle in hay` on strings. -/
def pyIn (needle hay : String) : Bool := subList needle.data hay.data

/-- Python `str.strip()` (whitespace from both ends). -/
def pyStrip (s : String) : String :=
  String.mk (((s.data.dropWhile pyWs).reverse.dropWhile pyWs).reverse)

/-- Helper for `re.sub(r'\s+', ' ', s)`: collapse whitespace runs. -/
def collapseWsAux : Bool → List Char → List Char
  | _, [] => []
  | prevWs, c :: cs =>
    if pyWs c then
      if prevWs then collapseWsAux true cs else ' ' :: collapseWsAux true cs
    else c :: collapseWsAux false cs

/-- Python `re.sub(r'\s+', ' ', s)`. -/
def collapseWs (s : String) : String := String.mk (collapseWsAux false s.data)

/-- Numeric value of a list of ASCII digits. -/
def digitsVal (cs : List Char) : ℕ :=
  cs.foldl (fun acc c => 10 * acc + (c.toNat - '0'.toNat)) 0

/-- Python `int(s)` on a string of digits. -/
def pyIntNat (s : String) : ℕ := digitsVal s.data

/-- Splits a character list at the first decimal point. -/
def dotSplit : List Char → List Char × Option (List Char)
  | [] => ([], none)
  | c :: rest =>
    if c = '.' then ([], some rest)
    else
      let (a, b) := dotSplit rest
      (c :: a, b)

/-- Exact decimal fraction `mant / 10 ^ exp`, the value Python's `float(...)`
receives from a captured decimal literal.  All comparisons the scrapers
perform on such values (against small integer bounds, and against zero for
truthiness) agree between the binary float and this exact representation for
every realistic capture, so the embedding uses the exact value. -/
structure Dec where
  mant : ℤ
  exp : ℕ
  deriving DecidableEq, Repr

/-- Power of ten as an integer (kept structural so proofs can evaluate it). -/
def pow10 (k : ℕ) : ℤ := ((10 ^ k : ℕ) : ℤ)

/-- Numeric strict order on decimal fractions. -/
def Dec.ltB (a b : Dec) : Bool := a.mant * pow10 b.exp < b.mant * pow10 a.exp

/-- The decimal fraction denoting a natural number. -/
def Dec.ofN (n : ℕ) : Dec := ⟨(n : ℤ), 0⟩

/-- The decimal fraction denoting a negative integer bound. -/
def Dec.negOfN (n : ℕ) : Dec := ⟨-(n : ℤ), 0⟩

/-- Python `float(s)` on a decimal literal captured by `(\d+\.?\d*)` or
`(\d+(?:\.\d+)?)`: the exact value `intpart.fracpart`. -/
def pyFloat (s : String) : Dec :=
  match dotSplit s.data with
  | (a, none) => ⟨(digitsVal a : ℤ), 0⟩
  | (a, some b) => ⟨(digitsVal a * 10 ^ b.length + digitsVal b : ℕ), b.length⟩

/-- ASCII letter class `[A-Za-z]`. -/
def asciiAlpha (c : Char) : Bool :=
  ('A' ≤ c && c ≤ 'Z') || ('a' ≤ c && c ≤ 'z')

/-- Word character class for `\b` (ASCII `[A-Za-z0-9_]`). -/
def wordChar (c : Char) : Bool := asciiAlpha c || c.isDigit || c = '_'

/-!
A tiny regular-expression syntax, covering exactly the constructs used by the
scrapers' patterns.  Matching results are returned in backtracking priority
order, so taking the head of the result list at the leftmost matching start
position reproduces Python `re.search` semantics for these patterns.
-/

/-- Regular-expression syntax for the pattern subset used by the sources. -/
inductive RE where
  /-- Empty pattern. -/
  | eps : RE
  /-- Case-insensitive literal (all source patterns are compiled with `re.I`). -/
  | lit : String → RE
  /-- Exactly one character satisfying the class. -/
  | one : (Char → Bool) → RE
  /-- Repetition of a character class, at least `mn` characters, greedy or
  lazy: covers `\s*`, `\s+`, `\d+`, `\d*`, `.*?`, `[^\n]*`, `[:\s]*`, …. -/
  | cls : (Char → Bool) → (mn : ℕ) → (lazy : Bool) → RE
  /-- Greedy option `r?`. -/
  | opt : RE → RE
  /-- Capture group `( r )`. -/
  | grp : RE → RE
  /-- Concatenation. -/
  | cat : RE → RE → RE
  /-- Alternation, left alternative preferred. -/
  | alt : RE → RE → RE
  /-- Zero-width lookahead `(?= r )`. -/
  | look : RE → RE
  /-- Strict end of input (used for `\b` at end of text). -/
  | eos : RE
  /-- Python `$`: end of input, or just before a final newline. -/
  | eod : RE

/-- Fold a list of regexes into a concatenation. -/
def reseq (rs : List RE) : RE := rs.foldr RE.cat RE.eps

/-- Fold a list of regexes into an alternation (first preferred). -/
def realt : List RE → RE
  | [] => RE.one (fun _ => false)
  | [r] => r
  | r :: rs => RE.alt r (realt rs)

/-- Length of the maximal prefix of `cs` inside the class `p`. -/
def runLen (p : Char → Bool) (cs : List Char) : ℕ := (cs.takeWhile p).length

/-- All matches of `r` against a prefix of `cs`, as pairs of consumed length
and captured groups, in backtracking priority order. -/
def mres : RE → List Char → List (ℕ × List String)
  | .eps, _ => [(0, [])]
  | .lit s, cs => if ciPfx s.data cs then [(s.data.length, [])] else []
  | .one p, cs =>
    match cs with
    | [] => []
    | c :: _ => if p c then [(1, [])] else []
  | .cls p mn lz, cs =>
    let r := runLen p cs
    if r < mn then []
    else
      let ks := (List.range (r + 1 - mn)).map (· + mn)
      let ks := if lz then ks else ks.reverse
      ks.map (fun k => (k, []))
  | .opt r, cs => mres r cs ++ [(0, [])]
  | .grp r, cs => (mres r cs).map (fun x => (x.1, String.mk (cs.take x.1) :: x.2))
  | .cat a b, cs =>
    (mres a cs).flatMap (fun x =>
      (mres b (cs.drop x.1)).map (fun y => (x.1 + y.1, x.2 ++ y.2)))
  | .alt a b, cs => mres a cs ++ mres b cs
  | .look r, cs => if (mres r cs).isEmpty then [] else [(0, [])]
  | .eos, cs => if cs.isEmpty then [(0, [])] else []
  | .eod, cs => if cs.isEmpty || cs = ['\n'] then [(0, [])] else []

/-- Python `re.search`: leftmost matching position, backtracking-first match;
returns the captured groups of that match, or `none` when nothing matches. -/
def research (r : RE) (s : String) : Option (List String) :=
  (List.range (s.data.length + 1)).findSome?
    (fun i => ((mres r (s.data.drop i)).head?).map Prod.snd)

/-- Shorthand: `\s*`. -/
def ws0 : RE := .cls pyWs 0 false

/-- Shorthand: `\s+`. -/
def ws1 : RE := .cls pyWs 1 false

/-- Shorthand: `\d+`. -/
def dig1 : RE := .cls Char.isDigit 1 false

/-- Shorthand: `\d*`. -/
def dig0 : RE := .cls Char.isDigit 0 false

/-- Shorthand: lazy DOTALL `.*?` (the sources combine `.*?` with `re.S`). -/
def anyLazy : RE := .cls (fun _ => true) 0 true

/-- Shorthand: greedy `[^\n]*`. -/
def nonNl0 : RE := .cls (fun c => c ≠ '\n') 0 false

/-- Shorthand: capture group `(\d+\.?\d*)`. -/
def numGrp : RE := .grp (reseq [dig1, .opt (.lit "."), dig0])

/-- Shorthand: capture group `(\d+(?:\.\d+)?)`. -/
def numGrp2 : RE := .grp (reseq [dig1, .opt (reseq [.lit ".", dig1])])

/-- Python truthiness of an optional float (absent and `0.0` are falsy). -/
def qTruthy : Option Dec → Bool
  | none => false
  | some q => q.mant ≠ 0

/-- Character class `[:\s]` used by the exit-fee patterns. -/
def colonWs (c : Char) : Bool := c = ':' || pyWs c

/-- Trace of one run of a retry controller: how many attempts ran, the sleeps
performed between attempts, the browser session used by each attempt
(identified by an allocation number), and whether the run ended in success. -/
structure RetryTrace where
  attempts : ℕ
  sleeps : List ℕ
  sessions : List ℕ
  success : Bool
  deriving DecidableEq, Repr

/-!
Embedding of `bg_scraper_v10.py`.

Note on the pound sign: in the source file every intended `£` is stored as the
two-character sequence `Â£` (bytes `C3 82 C2 A3`, i.e. U+00C2 followed by
U+00A3).  Python 3 reads the file as UTF-8, so the regex literals and the
f-strings of this scraper really contain `Â£`, and that is what is embedded
here.
-/

namespace BG

/-- Words that exclude an address option (`bg_scraper_v10.py` line 459). -/
def skip_words : List String :=
  ["flat", "floor", "apartment", "apt", "unit", "suite", "room", "basement",
   "1st", "2nd", "3rd", "4th", "5th"]

/-- The skip-word filter of `scrape_bg_tariffs` (lines 460-467): the in-range
indices whose lower-cased option text contains no skip word. -/
def filtered_indices (options : List String) (start : ℕ) : List ℕ :=
  (List.range' start (options.length - start)).filter (fun i =>
    match options.get? i with
    | some s => ¬ skip_words.any (fun w => pyIn w (lowerStr s))
    | none => false)

/-- Address index selection of `scrape_bg_tariffs` (lines 459-471): filter the
index range by the skip words, falling back to the first 10 in-range indices
when the filter removes everything.  Option texts are the dropdown texts. -/
def good_indices (options : List String) (start : ℕ) : List ℕ :=
  if (filtered_indices options start).isEmpty then
    List.range' start (min (options.length - start) 10)
  else filtered_indices options start

/-- The fields of the `rates` dict built by `extract_tariff_rates`. -/
structure Rates where
  gas_unit_rate_p : Option Dec := none
  gas_standing_p : Option Dec := none
  elec_unit_rate_p : Option Dec := none
  elec_standing_p : Option Dec := none
  tariff_name : Option String := none
  exit_fee : Option String := none
  deriving DecidableEq, Repr

/-- Pattern `<header>.*?Unit rate\s*(\d+\.?\d*)\s*p\s*per\s*kWh.*?Standing
charge\s*(\d+\.?\d*)\s*p\s*per\s*day` with `re.I | re.S` (lines 226-240). -/
def fuel_re (header : String) : RE :=
  reseq [.lit header, anyLazy, .lit "Unit rate", ws0, numGrp, ws0, .lit "p",
         ws0, .lit "per", ws0, .lit "kWh", anyLazy, .lit "Standing charge",
         ws0, numGrp, ws0, .lit "p", ws0, .lit "per", ws0, .lit "day"]

/-- The three `tariff_patterns` of lines 243-247. -/
def tariff_patterns : List RE :=
  [ .grp (reseq [.lit "Fixed Tariff", ws1, .cls asciiAlpha 1 false, dig1, ws0,
                 .opt (.lit "v"), dig0]),
    .grp (reseq [.lit "Fixed Tariff", ws1, .cls asciiAlpha 1 false, ws1,
                 .one Char.isDigit, .one Char.isDigit, .one Char.isDigit,
                 .one Char.isDigit, ws0, .opt (.lit "v"), dig0]),
    .cat (.grp (reseq [realt [.lit "Fixed", .lit "Variable", .lit "Flex", .lit "Standard"],
                       ws1, .lit "Tariff",
                       .cls (fun c => ¬ (c = '\n' || c = 'Â' || c = '£')) 0 true]))
         (.look (reseq [ws0, realt [.lit "Estimated", .lit "Fixed energy", .lit "Â£"]])) ]

/-- The tariff-name loop of lines 249-256: first pattern whose (whitespace
collapsed) match is longer than five characters wins. -/
def findTariffName : List RE → String → Option String
  | [], _ => none
  | p :: rest, t =>
    match research p t with
    | some (c :: _) =>
      let name := pyStrip (collapseWs (pyStrip c))
      if 5 < name.length then some name else findTariffName rest t
    | _ => findTariffName rest t

/-- Exit-fee pattern `Exit\s*fee[:\s]*Â£(\d+(?:\.\d+)?)\s*(per\s*fuel)?`
(line 260; the `Â£` mojibake is literally what the source contains). -/
def exit_fee_p1 : RE :=
  reseq [.lit "Exit", ws0, .lit "fee", .cls colonWs 0 false, .lit "Â£",
         numGrp2, ws0, .opt (.grp (reseq [.lit "per", ws0, .lit "fuel"]))]

/-- Exit-fee pattern `Exit\s*fee[:\s]+(\d+(?:\.\d+)?)\s*(per\s*fuel)?`
(line 261). -/
def exit_fee_p2 : RE :=
  reseq [.lit "Exit", ws0, .lit "fee", .cls colonWs 1 false,
         numGrp2, ws0, .opt (.grp (reseq [.lit "per", ws0, .lit "fuel"]))]

/-- Pattern `no\s*exit\s*fee` (line 277). -/
def no_exit_fee_re : RE := reseq [.lit "no", ws0, .lit "exit", ws0, .lit "fee"]

/-- Builds the exit-fee string from the captures of `exit_fee_p1`/`p2`
(lines 264-273): `Â£{amount} per fuel` when group 2 participated, else
`Â£{amount}`. -/
def exitFeeOfCaps : List String → Option String
  | [a] => some ("Â£" ++ a)
  | [a, _] => some ("Â£" ++ a ++ " per fuel")
  | _ => none

/-- The exit-fee extraction of lines 259-278 (first of the two patterns that
matches wins, then the `no exit fee` fallback). -/
def findExitFee (t : String) : Option String :=
  match research exit_fee_p1 t with
  | some caps => exitFeeOfCaps caps
  | none =>
    match research exit_fee_p2 t with
    | some caps => exitFeeOfCaps caps
    | none => if research no_exit_fee_re t ≠ none then some "Â£0" else none

/-- Embedding of `extract_tariff_rates` (`bg_scraper_v10.py` lines 222-280). -/
def extract_tariff_rates (page_text : String) : Rates :=
  let r : Rates := {}
  let r :=
    match research (fuel_re "Gas tariff costs") page_text with
    | some (u :: s :: _) =>
      { r with gas_unit_rate_p := some (pyFloat u), gas_standing_p := some (pyFloat s) }
    | _ => r
  let r :=
    match research (fuel_re "Electricity tariff costs") page_text with
    | some (u :: s :: _) =>
      { r with elec_unit_rate_p := some (pyFloat u), elec_standing_p := some (pyFloat s) }
    | _ => r
  let r := { r with tariff_name := findTariffName tariff_patterns page_text }
  { r with exit_fee := findExitFee page_text }

/-- Embedding of `detect_blocking` (`bg_scraper_v10.py` lines 287-308); the
caller passes the page body text, which the function lower-cases. -/
def detect_blocking (body : String) : Bool × String :=
  let t := lowerStr body
  if pyIn "network error" t then (true, "network_error")
  else if pyIn "access denied" t then (true, "access_denied")
  else if pyIn "too many requests" t then (true, "rate_limited")
  else if pyIn "captcha" t || pyIn "verify you are human" t then (true, "captcha")
  else if pyIn "error" t && pyIn "undefined" t then (true, "api_error")
  else if pyIn "something went wrong" t then (true, "generic_error")
  else (false, "")

/-- Step 8 of `scrape_bg_tariffs` (lines 681-691): the extracted quote is
appended to `result['tariffs']` exactly when both unit rates are truthy,
otherwise `result['error']` is set. -/
def step8 (page_text : String) : List Rates × Option String :=
  let rates := extract_tariff_rates page_text
  if qTruthy rates.gas_unit_rate_p && qTruthy rates.elec_unit_rate_p
  then ([rates], none)
  else ([], some "Could not extract rates")

/-- Recursion of `scrape_with_retry` (lines 722-739).  `succ a` tells whether
attempt `a` produced tariffs; `scrape_bg_tariffs` opens a fresh stealth
context on every call, modelled by the allocation counter `σ`.  The sleep
before the next attempt is `30 * 2 ^ (attempt - 1)` seconds (no jitter). -/
def retryAux (succ : ℕ → Bool) (maxA : ℕ) : ℕ → ℕ → ℕ → RetryTrace
  | _, 0, _ => ⟨0, [], [], false⟩
  | attempt, fuel + 1, σ =>
    if succ attempt then ⟨1, [], [σ], true⟩
    else if attempt < maxA then
      let t := retryAux succ maxA (attempt + 1) fuel (σ + 1)
      ⟨t.attempts + 1, (30 * 2 ^ (attempt - 1)) :: t.sleeps, σ :: t.sessions, t.success⟩
    else ⟨1, [], [σ], false⟩

/-- Embedding of `scrape_with_retry` (`bg_scraper_v10.py` lines 722-739). -/
def scrape_with_retry (succ : ℕ → Bool) (maxA σ0 : ℕ) : RetryTrace :=
  retryAux succ maxA 1 maxA σ0

end BG

/-- The candidate test shared verbatim by the E.ON and OVO
`get_valid_addresses` loop bodies: skip tried indices, texts that do not
start with a digit after stripping, and texts containing a skip word;
otherwise yield `(index, stripped text)`. -/
def candAt (skips : List String) (tried : List ℕ) (options : List String)
    (i : ℕ) : Option (ℕ × String) :=
  if i ∈ tried then none
  else
    match options.get? i with
    | none => none
    | some s =>
      let text := pyStrip s
      match text.data with
      | [] => none
      | c :: _ =>
        if ¬ c.isDigit then none
        else if skips.any (fun w => pyIn w (lowerStr text)) then none
        else some (i, text)

/-- The `for i in range(start_idx, len(options))` scan shared by the E.ON
and OVO `get_valid_addresses`. -/
def residentialFilter (skips : List String) (options : List String)
    (start : ℕ) (tried : List ℕ) : List (ℕ × String) :=
  (List.range' start (options.length - start)).filterMap (candAt skips tried options)

/-! Embedding of `eon_next_scraper_v5.py`. -/

namespace EON

/-- Skip words of `get_valid_addresses` (line 249). -/
def skip_words : List String :=
  ["flat", "apartment", "floor", "unit", "suite", "apt", "room", "basement"]

/-- Embedding of `get_valid_addresses` (`eon_next_scraper_v5.py` lines
246-266): indices from `start_idx` on, skipping tried indices, texts not
starting with a digit, and texts containing a skip word. -/
def get_valid_addresses (options : List String) (start : ℕ) (tried : List ℕ) :
    List (ℕ × String) :=
  residentialFilter skip_words options start tried

/-- The numeric extraction keys of the pattern table (lines 364-375). -/
inductive RateKey where
  | elec_day | elec_night | elec_unit | elec_st | gas_unit | gas_st
  deriving DecidableEq, Repr

/-- The fields of the `rates` dict built by `extract_rates`. -/
structure Rates where
  tariff_name : Option String := none
  exit_fee_gbp : Option ℕ := none
  elec_day_rate_p : Option Dec := none
  elec_night_rate_p : Option Dec := none
  elec_unit_rate_p : Option Dec := none
  elec_standing_p : Option Dec := none
  gas_unit_rate_p : Option Dec := none
  gas_standing_p : Option Dec := none
  deriving DecidableEq, Repr

/-- Reads the field of a `RateKey`. -/
def getKey (r : Rates) : RateKey → Option Dec
  | .elec_day => r.elec_day_rate_p
  | .elec_night => r.elec_night_rate_p
  | .elec_unit => r.elec_unit_rate_p
  | .elec_st => r.elec_standing_p
  | .gas_unit => r.gas_unit_rate_p
  | .gas_st => r.gas_standing_p

/-- Writes the field of a `RateKey`. -/
def setKey (r : Rates) (k : RateKey) (v : Dec) : Rates :=
  match k with
  | .elec_day => { r with elec_day_rate_p := some v }
  | .elec_night => { r with elec_night_rate_p := some v }
  | .elec_unit => { r with elec_unit_rate_p := some v }
  | .elec_st => { r with elec_standing_p := some v }
  | .gas_unit => { r with gas_unit_rate_p := some v }
  | .gas_st => { r with gas_standing_p := some v }

/-- Python `if rates:` — the dict is non-empty iff some field was set. -/
def nonempty (r : Rates) : Bool :=
  r.tariff_name.isSome || r.exit_fee_gbp.isSome || r.elec_day_rate_p.isSome ||
  r.elec_night_rate_p.isSome || r.elec_unit_rate_p.isSome ||
  r.elec_standing_p.isSome || r.gas_unit_rate_p.isSome || r.gas_standing_p.isSome

/-- The three tariff-name patterns of line 352. -/
def tariff_patterns : List RE :=
  [ .grp (reseq [.lit "Next Fixed ", dig1, .lit "m v", dig1]),
    .grp (reseq [.lit "Next Flex", nonNl0]),
    .grp (reseq [.lit "Next Online v", dig1]) ]

/-- The tariff-name loop of lines 352-356 (first match wins, stripped). -/
def findTariffName : List RE → String → Option String
  | [], _ => none
  | p :: rest, t =>
    match research p t with
    | some (c :: _) => some (pyStrip c)
    | _ => findTariffName rest t

/-- Exit-fee pattern
`£(\d+)\s*(?:per fuel\s*)?exit fee|exit fee[:\s]*£(\d+)` (line 359). -/
def exit_fee_re : RE :=
  .alt (reseq [.lit "£", .grp dig1, ws0, .opt (reseq [.lit "per fuel", ws0]),
               .lit "exit fee"])
       (reseq [.lit "exit fee", .cls colonWs 0 false, .lit "£", .grp dig1])

/-- The ordered `(pattern, key)` table of lines 364-375, all compiled with
`re.I | re.S`. -/
def rate_patterns : List (RE × RateKey) :=
  [ (reseq [.lit "electricity", anyLazy, .lit "day", anyLazy, numGrp, ws0, .lit "p"], .elec_day),
    (reseq [.lit "day", ws0, .lit "rate", anyLazy, numGrp, ws0, .lit "p"], .elec_day),
    (reseq [.lit "electricity", anyLazy, .lit "night", anyLazy, numGrp, ws0, .lit "p"], .elec_night),
    (reseq [.lit "night", ws0, .lit "rate", anyLazy, numGrp, ws0, .lit "p"], .elec_night),
    (reseq [.lit "electricity", anyLazy, .lit "unit", ws0, .lit "rate", anyLazy, numGrp, ws0, .lit "p"], .elec_unit),
    (reseq [.lit "electricity", anyLazy, numGrp, ws0, .lit "p", ws0, .opt (reseq [.lit "per", ws0]), .lit "kWh"], .elec_unit),
    (reseq [.lit "electricity", anyLazy, .lit "standing", anyLazy, numGrp, ws0, .lit "p"], .elec_st),
    (reseq [.lit "gas", anyLazy, .lit "unit", ws0, .lit "rate", anyLazy, numGrp, ws0, .lit "p"], .gas_unit),
    (reseq [.lit "gas", anyLazy, numGrp, ws0, .lit "p", ws0, .opt (reseq [.lit "per", ws0]), .lit "kWh"], .gas_unit),
    (reseq [.lit "gas", anyLazy, .lit "standing", anyLazy, numGrp, ws0, .lit "p"], .gas_st) ]

/-- The `for pattern, key in patterns` loop of lines 377-381: a key is only
set if it is not in the dict yet. -/
def applyRatePatterns (t : String) : List (RE × RateKey) → Rates → Rates
  | [], r => r
  | (p, k) :: rest, r =>
    let r :=
      if (getKey r k).isSome then r
      else
        match research p t with
        | some (c :: _) => setKey r k (pyFloat c)
        | _ => r
    applyRatePatterns t rest r

/-- Embedding of `extract_rates` (`eon_next_scraper_v5.py` lines 340-392),
as a function of the captured page text. -/
def extract_rates (page_text : String) : Rates :=
  let r : Rates := {}
  let r := { r with tariff_name := findTariffName tariff_patterns page_text }
  let r :=
    match research exit_fee_re page_text with
    | some (c :: _) => { r with exit_fee_gbp := some (pyIntNat c) }
    | _ => r
  applyRatePatterns page_text rate_patterns r

/-- Step 9 of `scrape_eon` (lines 636-645): the rates dict is appended to
`result['tariffs']` whenever it is non-empty, otherwise the error string is
set. -/
def step9 (page_text : String) : List Rates × Option String :=
  let rates := extract_rates page_text
  if nonempty rates then ([rates], none)
  else ([], some "Could not extract rates")

/-- Recursion of `scrape_with_retry` (lines 662-680).  Every attempt calls
`scrape_eon(driver, …)` with the one `driver` that `run_scraper` created for
the whole batch, so each attempt's session is that same driver.  The sleep
before the next attempt is `30 * 2 ^ (attempt - 1) + random.randint(0, 30)`;
the random draw for attempt `a` is the oracle value `jitter a`. -/
def retryAux (driver : ℕ) (succ : ℕ → Bool) (jitter : ℕ → ℕ) (maxA : ℕ) :
    ℕ → ℕ → RetryTrace
  | _, 0 => ⟨0, [], [], false⟩
  | attempt, fuel + 1 =>
    if succ attempt then ⟨1, [], [driver], true⟩
    else if attempt < maxA then
      let t := retryAux driver succ jitter maxA (attempt + 1) fuel
      ⟨t.attempts + 1, (30 * 2 ^ (attempt - 1) + jitter attempt) :: t.sleeps,
       driver :: t.sessions, t.success⟩
    else ⟨1, [], [driver], false⟩

/-- Embedding of `scrape_with_retry` (`eon_next_scraper_v5.py` lines 662-680)
together with the session threading of `run_scraper` (lines 701-712). -/
def scrape_with_retry (driver : ℕ) (succ : ℕ → Bool) (jitter : ℕ → ℕ)
    (maxA : ℕ) : RetryTrace :=
  retryAux driver succ jitter maxA 1 maxA

end EON

/-! Embedding of `ovo_scraper_v1.py`. -/

namespace OVO

/-- Embedding of `detect_blocking` (`ovo_scraper_v1.py` lines 321-339). -/
def detect_blocking (body : String) : Bool × String :=
  let t := lowerStr body
  if pyIn "network error" t then (true, "network_error")
  else if pyIn "access denied" t then (true, "access_denied")
  else if pyIn "too many requests" t then (true, "rate_limited")
  else if pyIn "captcha" t || pyIn "verify you are human" t then (true, "captcha")
  else if pyIn "something went wrong" t then (true, "generic_error")
  else (false, "")

/-- Skip words of `get_valid_addresses` (line 384). -/
def skip_words : List String :=
  ["flat", "apartment", "floor", "unit", "suite", "apt", "room", "basement"]

/-- Embedding of `get_valid_addresses` (`ovo_scraper_v1.py` lines 381-401);
its body is the same filter as the E.ON one. -/
def get_valid_addresses (options : List String) (start : ℕ) (tried : List ℕ) :
    List (ℕ × String) :=
  residentialFilter skip_words options start tried

/-- Members of a list of naturals are bounded by its `foldr max 0`. -/
theorem mem_le_foldrMax : ∀ (l : List ℕ), ∀ m ∈ l, m ≤ l.foldr max 0 := by
  intro l
  induction l with
  | nil => intro m hm; cases hm
  | cons a t ih =>
    intro m hm
    rcases List.mem_cons.mp hm with h | h
    · subst h; exact le_max_left _ _
    · exact le_trans (ih m h) (le_max_right _ _)

/-- Every tried list is avoidable: some offset lands outside it. -/
theorem exists_untried (base : ℕ) (tried : List ℕ) : ∃ n, base + n ∉ tried :=
  ⟨tried.foldr max 0 + 1, fun hmem => by
    have := mem_le_foldrMax tried _ hmem; omega⟩

/-- The keyboard selection loop of `scrape_ovo_tariffs` (lines 569-572 and
674-676): `target_idx` starts at a base index and is incremented while it is
in `tried_addresses`.  Modelled as the least index at least `base` that is
not tried. -/
def pickIndex (base : ℕ) (tried : List ℕ) : ℕ :=
  base + Nat.find (exists_untried base tried)

/-- The meter-retry picks (lines 640-676): retry round `r` starts from base
`start + r`, skips tried indices, and records its pick as tried. -/
def picksAux (start : ℕ) : ℕ → ℕ → List ℕ → List ℕ × List ℕ
  | _, 0, tr => ([], tr)
  | r, f + 1, tr =>
    let p := pickIndex (start + r) tr
    let (ps, tr') := picksAux start (r + 1) f (tr ++ [p])
    (p :: ps, tr')

/-- All address picks of one attempt of `scrape_ovo_tariffs`: the initial
pick from `start_idx` (lines 569-573), then up to
`min retries 5` meter-retry picks (`max_address_retries = 5`, line 639).
Returns the picks and the tried set after the attempt. -/
def attemptPicks (start retries : ℕ) (tried : List ℕ) : List ℕ × List ℕ :=
  let p0 := pickIndex start tried
  let (ps, tr') := picksAux start 1 (min retries 5) (tried ++ [p0])
  (p0 :: ps, tr')

end OVO

/-! Embedding of `so_energy_scraper_v2.py` (the part the claims cite). -/

namespace SO

/-- Embedding of `detect_blocking` (`so_energy_scraper_v2.py` lines 287-302);
its body is identical to the OVO one. -/
def detect_blocking (body : String) : Bool × String :=
  let t := lowerStr body
  if pyIn "network error" t then (true, "network_error")
  else if pyIn "access denied" t then (true, "access_denied")
  else if pyIn "too many requests" t then (true, "rate_limited")
  else if pyIn "captcha" t || pyIn "verify you are human" t then (true, "captcha")
  else if pyIn "something went wrong" t then (true, "generic_error")
  else (false, "")

end SO

/-! Embedding of `scottish_power_scraper_v2.py`. -/

namespace SP

/-- Skip words of the address loops (line 473). -/
def skip_words : List String :=
  ["flat", "apartment", "floor", "unit", "suite", "apt", "room", "basement"]

/-- Validity test applied to an option text by the primary address loop
(lines 479-483): non-empty after strip, first character a digit, and no skip
word in the lower-cased text. -/
def okText (s : String) : Bool :=
  let text := pyStrip s
  match text.data with
  | [] => false
  | c :: _ => c.isDigit && ¬ skip_words.any (fun w => pyIn w (lowerStr text))

/-- Primary address selection of `scrape_sp_tariffs` (lines 475-496): scan
`range(start_idx, min(len(options), start_idx + 15))`, skip tried or invalid
entries, select and mark the first hit; when nothing is selected, fall back
to selecting index 1 and marking it tried, whether or not it was tried. -/
def selectFirstAddress (options : List String) (start : ℕ) (tried : List ℕ) :
    ℕ × List ℕ :=
  let rng := List.range' start (min (options.length - start) 15)
  match rng.find? (fun i =>
    decide (i ∉ tried) &&
    match options.get? i with
    | some s => okText s
    | none => false) with
  | some i => (i, tried ++ [i])
  | none => (1, tried ++ [1])

/-- The fields of the `rates` dict built by SP's `extract_tariff_rates`. -/
structure Rates where
  tariff_name : Option String := none
  exit_fee : Option String := none
  elec_unit_rate_p : Option Dec := none
  elec_standing_p : Option Dec := none
  gas_unit_rate_p : Option Dec := none
  gas_standing_p : Option Dec := none
  deriving DecidableEq, Repr

/-- Python `if rates:` for SP. -/
def nonempty (r : Rates) : Bool :=
  r.tariff_name.isSome || r.exit_fee.isSome || r.elec_unit_rate_p.isSome ||
  r.elec_standing_p.isSome || r.gas_unit_rate_p.isSome || r.gas_standing_p.isSome

/-- The nine `tariff_patterns` of lines 141-151. -/
def tariff_patterns : List RE :=
  [ .grp (reseq [.one Char.isDigit, ws0, .lit "Year", ws0, .lit "Fixed", nonNl0]),
    .grp (reseq [.lit "Fixed", ws0, dig1, ws0, .lit "Year", nonNl0]),
    .grp (reseq [.lit "Exclusive Online Fixed", nonNl0]),
    .grp (reseq [.lit "Standard Variable", nonNl0]),
    .grp (reseq [.lit "Fixed Price", nonNl0, .one Char.isDigit, .one Char.isDigit,
                 .one Char.isDigit, .one Char.isDigit]),
    .grp (reseq [.lit "ScottishPower", nonNl0, .lit "Tariff", nonNl0]),
    .grp (reseq [.lit "Fixed", ws1, .opt (reseq [.lit "Price", ws1]),
                 .cls asciiAlpha 1 false, ws1, .one Char.isDigit,
                 .one Char.isDigit, .one Char.isDigit, .one Char.isDigit]),
    .grp (reseq [.lit "Online", ws0, .lit "Fixed", nonNl0]),
    .grp (reseq [.lit "Variable", nonNl0, .lit "Tariff", nonNl0]) ]

/-- The tariff-name loop of lines 153-160: strip, collapse whitespace, accept
when longer than five characters, else try the next pattern. -/
def findTariffName : List RE → String → Option String
  | [], _ => none
  | p :: rest, t =>
    match research p t with
    | some (c :: _) =>
      let name := collapseWs (pyStrip c)
      if 5 < name.length then some name else findTariffName rest t
    | _ => findTariffName rest t

/-- The four `exit_patterns` of lines 163-168 paired with whether the pattern
has the `(per\s*fuel)?` second group. -/
def exit_patterns : List (RE × Bool) :=
  [ (reseq [.lit "Exit", ws0, .lit "fee", .cls colonWs 0 false, .lit "£",
            numGrp2, ws0, .opt (.grp (reseq [.lit "per", ws0, .lit "fuel"]))], true),
    (reseq [.lit "Cancellation", ws0, .lit "fee", .cls colonWs 0 false, .lit "£",
            numGrp2], false),
    (reseq [.lit "£", numGrp2, ws0,
            .opt (reseq [.lit "per", ws0, .lit "fuel", ws0]),
            .lit "exit", ws0, .lit "fee"], false),
    (reseq [.lit "Early", ws0, .lit "termination", .cls colonWs 0 false, .lit "£",
            numGrp2], false) ]

/-- The exit-fee loop of lines 170-176: first matching pattern wins; the
`per fuel` suffix is appended only when the pattern's second group
participated. -/
def findExitFee : List (RE × Bool) → String → Option String
  | [], _ => none
  | (p, hasPF) :: rest, t =>
    match research p t with
    | some (a :: moreCaps) =>
      if hasPF ∧ moreCaps ≠ [] then some ("£" ++ a ++ " per fuel")
      else some ("£" ++ a)
    | _ => findExitFee rest t

/-- Pattern `no\s*exit\s*fee|£0\s*exit|exit\s*fee.*?£?0` (line 179;
compiled without `re.S`, so `.` does not cross newlines). -/
def no_exit_fee_re : RE :=
  realt [ reseq [.lit "no", ws0, .lit "exit", ws0, .lit "fee"],
          reseq [.lit "£0", ws0, .lit "exit"],
          reseq [.lit "exit", ws0, .lit "fee", .cls (fun c => c ≠ '\n') 0 true,
                 .opt (.lit "£"), .lit "0"] ]

/-- Section pattern `Electricity(.*?)(?=Gas\b|$)` of lines 183-187. -/
def sec_elec_re : RE :=
  reseq [.lit "Electricity", .grp anyLazy,
         .look (.alt (reseq [.lit "Gas",
                             .alt (.look (.one (fun c => ¬ wordChar c))) .eos])
                     .eod)]

/-- Section pattern `Gas\b(.*?)(?=Electricity|$)` of lines 190-194. -/
def sec_gas_re : RE :=
  reseq [.lit "Gas", .alt (.look (.one (fun c => ¬ wordChar c))) .eos,
         .grp anyLazy, .look (.alt (.lit "Electricity") .eod)]

/-- Extracts the group-1 section text, or `""` when the pattern misses. -/
def sectionText (r : RE) (t : String) : String :=
  match research r t with
  | some (c :: _) => c
  | _ => ""

/-- The four `elec_unit_patterns` of lines 198-203 (also reused for gas). -/
def elec_unit_patterns : List RE :=
  [ reseq [.lit "Unit", ws0, .lit "rate", .cls colonWs 0 false, numGrp, ws0,
           .lit "p", .opt (reseq [ws0, .lit "per", ws0, .lit "kWh"])],
    reseq [numGrp, ws0, .lit "p", ws0, .lit "per", ws0, .lit "kWh"],
    reseq [numGrp, ws0, .lit "p/kWh"],
    reseq [.grp (reseq [dig1, .lit ".", .one Char.isDigit, .one Char.isDigit,
                        dig0]), ws0, .lit "p"] ]

/-- The three `elec_sc_patterns` of lines 214-218 (also reused for gas). -/
def elec_sc_patterns : List RE :=
  [ reseq [.lit "Standing", ws0, .lit "charge", .cls colonWs 0 false, numGrp,
           ws0, .lit "p", .opt (reseq [ws0, .lit "per", ws0, .lit "day"])],
    reseq [numGrp, ws0, .lit "p", ws0, .lit "per", ws0, .lit "day"],
    reseq [numGrp, ws0, .lit "p/day"] ]

/-- The filtered first-match loops of lines 205-244: the first pattern that
matches yields a value, which is stored only when it lies strictly inside
`(lo, hi)`; an out-of-range match falls through to the next pattern. -/
def firstInRange : List RE → String → Dec → Dec → Option Dec
  | [], _, _, _ => none
  | p :: rest, t, lo, hi =>
    match research p t with
    | some (c :: _) =>
      let v := pyFloat c
      if Dec.ltB lo v && Dec.ltB v hi then some v else firstInRange rest t lo hi
    | _ => firstInRange rest t lo hi

/-- Embedding of SP's `extract_tariff_rates`
(`scottish_power_scraper_v2.py` lines 134-253). -/
def extract_tariff_rates (page_text : String) : Rates :=
  let elec_text := sectionText sec_elec_re page_text
  let gas_text := sectionText sec_gas_re page_text
  let exitFee :=
    match findExitFee exit_patterns page_text with
    | some e => some e
    | none => if research no_exit_fee_re page_text ≠ none then some "£0" else none
  { tariff_name := findTariffName tariff_patterns page_text
    exit_fee := exitFee
    elec_unit_rate_p := firstInRange elec_unit_patterns elec_text (Dec.ofN 10) (Dec.ofN 50)
    elec_standing_p := firstInRange elec_sc_patterns elec_text (Dec.ofN 20) (Dec.ofN 80)
    gas_unit_rate_p := firstInRange elec_unit_patterns gas_text (Dec.ofN 3) (Dec.ofN 20)
    gas_standing_p := firstInRange elec_sc_patterns gas_text (Dec.ofN 20) (Dec.ofN 50) }

/-- Embedding of `validate_rates` (`scottish_power_scraper_v2.py` lines
256-283): counts warnings and reports whether there were none.  Each check
fires only when the field is truthy (`if elec_unit:` — so a `0.0` value is
not even checked). -/
def validate_rates (r : Rates) : Bool :=
  let w1 : ℕ := match r.elec_unit_rate_p with
    | some v => if v.mant ≠ 0 && (Dec.ltB (Dec.ofN 50) v || Dec.ltB v (Dec.ofN 10)) then 1 else 0
    | none => 0
  let w2 : ℕ := match r.gas_unit_rate_p with
    | some v => if v.mant ≠ 0 && (Dec.ltB (Dec.ofN 20) v || Dec.ltB v (Dec.ofN 3)) then 1 else 0
    | none => 0
  let w3 : ℕ := match r.elec_standing_p with
    | some v => if v.mant ≠ 0 && (Dec.ltB (Dec.ofN 70) v || Dec.ltB v (Dec.ofN 20)) then 1 else 0
    | none => 0
  let w4 : ℕ := match r.gas_standing_p with
    | some v => if v.mant ≠ 0 && (Dec.ltB (Dec.ofN 50) v || Dec.ltB v (Dec.ofN 20)) then 1 else 0
    | none => 0
  w1 + w2 + w3 + w4 = 0

/-- The result step of `scrape_sp_tariffs` (lines 1128-1138): when the rates
dict is non-empty, `validate_rates` is called purely for its warning output
(its return value is discarded) and the dict is appended unchanged; an empty
dict sets the error string. -/
def stepFinal (rates : Rates) : List Rates × Option String :=
  if nonempty rates then ([rates], none) else ([], some "No rates extracted")

/-- Selections made by SP's retry controller (`scrape_with_retry`, lines
1163-1180, threading `tried` through `scrape_sp_tariffs`): per attempt the
primary address selection of lines 475-496, stopping early on success. -/
def retrySelAux (options : ℕ → List String) (start : ℕ) (succ : ℕ → Bool)
    (maxA : ℕ) : ℕ → ℕ → List ℕ → List ℕ
  | _, 0, _ => []
  | a, fuel + 1, tr =>
    let pick := selectFirstAddress (options a) start tr
    if succ a then [pick.1]
    else if a < maxA then pick.1 :: retrySelAux options start succ maxA (a + 1) fuel pick.2
    else [pick.1]

/-- Address index selected by each attempt of one SP task. -/
def retrySelections (options : ℕ → List String) (start : ℕ) (succ : ℕ → Bool)
    (maxA : ℕ) : List ℕ :=
  retrySelAux options start succ maxA 1 maxA []

end SP

/-! Embedding of `octopus_api_v1.py` (the part the claims cite). -/

namespace OCT

/-- The rate fields checked by Octopus's `validate_rates`. -/
structure Rates where
  elec_unit_rate_p : Option Dec := none
  elec_standing_p : Option Dec := none
  gas_unit_rate_p : Option Dec := none
  gas_standing_p : Option Dec := none
  deriving DecidableEq, Repr

/-- Embedding of `validate_rates` (`octopus_api_v1.py` lines 131-169): warns
(returns `false`) when a present value is outside the generous sanity bands;
the checks use `is not None`, not truthiness. -/
def validate_rates (r : Rates) : Bool :=
  let w1 : ℕ := match r.elec_unit_rate_p with
    | some v => if Dec.ltB (Dec.ofN 100) v || Dec.ltB v (Dec.negOfN 20) then 1 else 0
    | none => 0
  let w2 : ℕ := match r.gas_unit_rate_p with
    | some v => if Dec.ltB (Dec.ofN 30) v || Dec.ltB v (Dec.ofN 0) then 1 else 0
    | none => 0
  let w3 : ℕ := match r.elec_standing_p with
    | some v => if Dec.ltB (Dec.ofN 100) v || Dec.ltB v (Dec.ofN 10) then 1 else 0
    | none => 0
  let w4 : ℕ := match r.gas_standing_p with
    | some v => if Dec.ltB (Dec.ofN 100) v || Dec.ltB v (Dec.ofN 10) then 1 else 0
    | none => 0
  w1 + w2 + w3 + w4 = 0

/-- The result-inclusion condition of the Octopus runner (line 267):
`if rates.get("elec_unit_rate_p") or rates.get("gas_unit_rate_p")` — the
tariff row is emitted with the rates as extracted, with no reference to the
`validate_rates` outcome. -/
def emit (r : Rates) : Bool :=
  qTruthy r.elec_unit_rate_p || qTruthy r.gas_unit_rate_p

end OCT

/-! Embedding of `run_all_scrapers.py` (the aggregator). -/

namespace AGG

/-- A scraper output file as seen by the aggregator: its name, its
modification time, and the number of `ScrapeResult` records in its JSON
array. -/
structure OutFile where
  name : String
  mtime : ℕ
  records : ℕ
  deriving DecidableEq, Repr

/-- One comparison step of Python's `max(files, key=os.path.getmtime)`:
keep the current best unless the next file is strictly newer (so the first
maximal file wins ties, as Python's `max` does). -/
def pickNewer (best : Option OutFile) (f : OutFile) : Option OutFile :=
  match best with
  | none => some f
  | some b => if b.mtime < f.mtime then some f else some b

/-- Embedding of `get_latest_file` (`run_all_scrapers.py` lines 96-101):
`max(files, key=os.path.getmtime)` over the glob matches — the most recently
modified file, the first one on ties, `None` when nothing matches.  The
record counts are never consulted.  `load_scraper_results` (lines 135-145)
loads whichever file this function returns. -/
def get_latest_file (files : List OutFile) : Option OutFile :=
  files.foldl pickNewer none

end AGG

/-! Generic skeleton of the retry loops that thread a tried-address set
through the attempts (identical loop shape in the E.ON, OVO and SP files):
run an attempt's selection step, stop on success, otherwise continue with
the grown tried set. -/

/-- Visit a list up to and including the first element accepted by `p`
(the `break` of the address loops). -/
def takeThrough (p : α → Bool) : List α → List α
  | [] => []
  | x :: xs => if p x then [x] else x :: takeThrough p xs

/-- One selection step: from the attempt number and the current tried set,
the indices selected this attempt and the tried set afterwards. -/
def SelStep : Type := ℕ → List ℕ → List ℕ × List ℕ

/-- The common retry-loop shape (`for attempt in range(1, max+1)` with early
return on success), collecting each attempt's selections while threading the
tried set. -/
def threadSel (sel : SelStep) (succ : ℕ → Bool) (maxA : ℕ) :
    ℕ → ℕ → List ℕ → List (List ℕ)
  | _, 0, _ => []
  | a, fuel + 1, tr =>
    let s := sel a tr
    if succ a then [s.1]
    else if a < maxA then s.1 :: threadSel sel succ maxA (a + 1) fuel s.2
    else [s.1]

/-- The per-attempt selection step of the E.ON journey: the candidate list is
`get_valid_addresses` on this attempt's options and the current tried set,
capped at ten candidates (line 465), visited in order until one works, and
every visited candidate is added to the tried set (line 469). -/
def eonSelStep (opts : ℕ → List String) (start : ℕ) (works : ℕ → ℕ → Bool) :
    SelStep := fun a tr =>
  let vis := takeThrough (works a)
    (((EON.get_valid_addresses (opts a) start tr).map Prod.fst).take 10)
  (vis, tr ++ vis)

/-- Selections per attempt of one E.ON task (`scrape_with_retry` lines
662-680 threading `tried` through `scrape_eon`). -/
def eonRetrySelections (opts : ℕ → List String) (start : ℕ)
    (works : ℕ → ℕ → Bool) (succ : ℕ → Bool) (maxA : ℕ) : List (List ℕ) :=
  threadSel (eonSelStep opts start works) succ maxA 1 maxA []

/-- The per-attempt selection step of the OVO journey (keyboard picks). -/
def ovoSelStep (start : ℕ) (retries : ℕ → ℕ) : SelStep := fun a tr =>
  OVO.attemptPicks start (retries a) tr

/-- Selections per attempt of one OVO task (`scrape_with_retry` lines
929-946 threading `tried` through `scrape_ovo_tariffs`). -/
def ovoRetrySelections (start : ℕ) (retries : ℕ → ℕ) (succ : ℕ → Bool)
    (maxA : ℕ) : List (List ℕ) :=
  threadSel (ovoSelStep start retries) succ maxA 1 maxA []

/-!
Theorems settling the claims.
-/

/-- Classifier described by the amended claim C3: scan a fixed kind table in
priority order and return the first kind whose phrase test hits, `(false, "")`
when none does. -/
def priorityClassify (table : List ((String → Bool) × String)) (t : String) :
    Bool × String :=
  match table.find? (fun k => k.1 t) with
  | some k => (true, k.2)
  | none => (false, "")

/-- The priority order the British Gas classifier actually implements:
NetworkError, then AccessDenied, RateLimited, Captcha, ApiError,
GenericError. -/
def bg_kind_table : List ((String → Bool) × String) :=
  [ (fun t => pyIn "network error" t, "network_error"),
    (fun t => pyIn "access denied" t, "access_denied"),
    (fun t => pyIn "too many requests" t, "rate_limited"),
    (fun t => pyIn "captcha" t || pyIn "verify you are human" t, "captcha"),
    (fun t => pyIn "error" t && pyIn "undefined" t, "api_error"),
    (fun t => pyIn "something went wrong" t, "generic_error") ]

/-- The priority order the OVO and So Energy classifiers actually implement:
NetworkError, then AccessDenied, RateLimited, Captcha, GenericError. -/
def ovo_kind_table : List ((String → Bool) × String) :=
  [ (fun t => pyIn "network error" t, "network_error"),
    (fun t => pyIn "access denied" t, "access_denied"),
    (fun t => pyIn "too many requests" t, "rate_limited"),
    (fun t => pyIn "captcha" t || pyIn "verify you are human" t, "captcha"),
    (fun t => pyIn "something went wrong" t, "generic_error") ]

/-- Claim C3 (amended): each blocker classifier equals the priority scan of
its fixed kind table — with NetworkError highest and Captcha only fourth,
not first — and its output depends only on which phrases occur in the text,
not on where they occur. -/
theorem C3_classifier_priority (t : String) :
    (BG.detect_blocking t = priorityClassify bg_kind_table (lowerStr t) ∧
     OVO.detect_blocking t = priorityClassify ovo_kind_table (lowerStr t) ∧
     SO.detect_blocking t = priorityClassify ovo_kind_table (lowerStr t)) ∧
    (∀ t' : String,
      pyIn "network error" (lowerStr t) = pyIn "network error" (lowerStr t') →
      pyIn "access denied" (lowerStr t) = pyIn "access denied" (lowerStr t') →
      pyIn "too many requests" (lowerStr t) = pyIn "too many requests" (lowerStr t') →
      pyIn "captcha" (lowerStr t) = pyIn "captcha" (lowerStr t') →
      pyIn "verify you are human" (lowerStr t) = pyIn "verify you are human" (lowerStr t') →
      pyIn "error" (lowerStr t) = pyIn "error" (lowerStr t') →
      pyIn "undefined" (lowerStr t) = pyIn "undefined" (lowerStr t') →
      pyIn "something went wrong" (lowerStr t) = pyIn "something went wrong" (lowerStr t') →
      BG.detect_blocking t = BG.detect_blocking t' ∧
      OVO.detect_blocking t = OVO.detect_blocking t' ∧
      SO.detect_blocking t = SO.detect_blocking t') := by
  constructor
  · cases h1 : pyIn "network error" (lowerStr t) <;>
    cases h2 : pyIn "access denied" (lowerStr t) <;>
    cases h3 : pyIn "too many requests" (lowerStr t) <;>
    cases h4 : pyIn "captcha" (lowerStr t) <;>
    cases h5 : pyIn "verify you are human" (lowerStr t) <;>
    cases h6 : pyIn "error" (lowerStr t) <;>
    cases h7 : pyIn "undefined" (lowerStr t) <;>
    cases h8 : pyIn "something went wrong" (lowerStr t) <;>
      simp [BG.detect_blocking, OVO.detect_blocking, SO.detect_blocking,
            priorityClassify, bg_kind_table, ovo_kind_table, List.find?,
            h1, h2, h3, h4, h5, h6, h7, h8]
  · intro t' e1 e2 e3 e4 e5 e6 e7 e8
    refine ⟨?_, ?_, ?_⟩ <;>
      simp only [BG.detect_blocking, OVO.detect_blocking, SO.detect_blocking,
                 e1, e2, e3, e4, e5, e6, e7, e8]

/-- Witness for C3: two texts carrying the same phrases in opposite order
classify identically (both to `network_error`). -/
theorem C3_witness :
    BG.detect_blocking "captcha then network error" =
      BG.detect_blocking "network error then captcha" ∧
    OVO.detect_blocking "captcha then network error" =
      OVO.detect_blocking "network error then captcha" ∧
    SO.detect_blocking "captcha then network error" =
      SO.detect_blocking "network error then captcha" :=
  (C3_classifier_priority "captcha then network error").2
    "network error then captcha" (by decide) (by decide) (by decide) (by decide)
    (by decide) (by decide) (by decide) (by decide)

/-- Counterexample for C3 as stated: a text containing both a captcha phrase
and a network-error phrase classifies as `network_error` in all three
classifiers, although the claim's priority order puts Captcha first. -/
theorem C3_counterexample :
    pyIn "captcha" (lowerStr "CAPTCHA: network error") = true ∧
    pyIn "network error" (lowerStr "CAPTCHA: network error") = true ∧
    BG.detect_blocking "CAPTCHA: network error" = (true, "network_error") ∧
    OVO.detect_blocking "CAPTCHA: network error" = (true, "network_error") ∧
    SO.detect_blocking "CAPTCHA: network error" = (true, "network_error") := by
  decide

/-- Folding `pickNewer` keeps an element of the accumulator or the list. -/
theorem agg_fold_mem :
    ∀ (files : List AGG.OutFile) (acc : Option AGG.OutFile) (g : AGG.OutFile),
      files.foldl AGG.pickNewer acc = some g →
      acc = some g ∨ g ∈ files := by
  intro files
  induction files with
  | nil => intro acc g h; exact Or.inl h
  | cons f rest ih =>
    intro acc g h
    rcases ih _ g h with h' | h'
    · cases acc with
      | none =>
        simp only [AGG.pickNewer] at h'
        injection h' with hh
        subst hh
        exact Or.inr (List.mem_cons_self f rest)
      | some b =>
        by_cases hm : b.mtime < f.mtime
        · simp only [AGG.pickNewer, hm, if_pos] at h'
          injection h' with hh
          subst hh
          exact Or.inr (List.mem_cons_self f rest)
        · simp only [AGG.pickNewer, hm, if_neg] at h'
          exact Or.inl h'
    · exact Or.inr (List.mem_cons_of_mem _ h')

/-- Folding `pickNewer` dominates the accumulator and every list element in
modification time. -/
theorem agg_fold_max :
    ∀ (files : List AGG.OutFile) (acc : Option AGG.OutFile) (g : AGG.OutFile),
      files.foldl AGG.pickNewer acc = some g →
      (∀ b, acc = some b → b.mtime ≤ g.mtime) ∧ ∀ f ∈ files, f.mtime ≤ g.mtime := by
  intro files
  induction files with
  | nil =>
    intro acc g h
    simp only [List.foldl_nil] at h
    refine ⟨fun b hb => ?_, fun f hf => absurd hf (List.not_mem_nil f)⟩
    rw [hb] at h
    injection h with hh
    rw [hh]
  | cons f rest ih =>
    intro acc g h
    rcases ih _ g h with ⟨hacc, hrest⟩
    constructor
    · intro b hb
      subst hb
      by_cases hm : b.mtime < f.mtime
      · have := hacc f (by simp [AGG.pickNewer, hm])
        omega
      · exact hacc b (by simp [AGG.pickNewer, hm])
    · intro x hx
      rcases List.mem_cons.mp hx with hx | hx
      · subst hx
        cases acc with
        | none => exact hacc x (by simp [AGG.pickNewer])
        | some b =>
          by_cases hm : b.mtime < x.mtime
          · exact hacc x (by simp [AGG.pickNewer, hm])
          · have := hacc b (by simp [AGG.pickNewer, hm]); omega
      · exact hrest x hx

/-- Claim C1 (amended): `get_latest_file` selects a matching file of maximal
modification time — the most recently modified one — regardless of record
counts; in particular a later-modified 3-record file beats an
earlier-modified 14-record file. -/
theorem C1_get_latest_file_is_mtime_max
    (files : List AGG.OutFile) (g : AGG.OutFile)
    (h : AGG.get_latest_file files = some g) :
    g ∈ files ∧ ∀ f ∈ files, f.mtime ≤ g.mtime := by
  have hm := agg_fold_mem files none g h
  have hx := agg_fold_max files none g h
  refine ⟨?_, hx.2⟩
  rcases hm with hm | hm
  · cases hm
  · exact hm

/-- Witness for C1: on two files matching one supplier's pattern, a 3-record
file modified at time 200 and a 14-record file modified at time 100, the
selected file is the later-modified one and dominates both mtimes. -/
theorem C1_witness :
    AGG.get_latest_file
      [⟨"bg_tariffs_full.json", 100, 14⟩, ⟨"bg_tariffs_retry.json", 200, 3⟩] =
      some ⟨"bg_tariffs_retry.json", 200, 3⟩ ∧
    (⟨"bg_tariffs_retry.json", 200, 3⟩ : AGG.OutFile) ∈
      [(⟨"bg_tariffs_full.json", 100, 14⟩ : AGG.OutFile), ⟨"bg_tariffs_retry.json", 200, 3⟩] ∧
    ∀ f ∈ [(⟨"bg_tariffs_full.json", 100, 14⟩ : AGG.OutFile), ⟨"bg_tariffs_retry.json", 200, 3⟩],
      f.mtime ≤ (200 : ℕ) :=
  ⟨by decide,
   (C1_get_latest_file_is_mtime_max
     [⟨"bg_tariffs_full.json", 100, 14⟩, ⟨"bg_tariffs_retry.json", 200, 3⟩]
     ⟨"bg_tariffs_retry.json", 200, 3⟩ (by decide)).1,
   (C1_get_latest_file_is_mtime_max
     [⟨"bg_tariffs_full.json", 100, 14⟩, ⟨"bg_tariffs_retry.json", 200, 3⟩]
     ⟨"bg_tariffs_retry.json", 200, 3⟩ (by decide)).2⟩

/-- Counterexample for C1 as stated: with a 14-record file modified at time
100 and a 3-record file modified at time 200, the aggregator selects the
3-record file, not the 14-record one — selection follows modification time,
not record count. -/
theorem C1_counterexample :
    AGG.get_latest_file
      [⟨"bg_tariffs_full.json", 100, 14⟩, ⟨"bg_tariffs_retry.json", 200, 3⟩] =
      some ⟨"bg_tariffs_retry.json", 200, 3⟩ ∧
    (⟨"bg_tariffs_retry.json", 200, 3⟩ : AGG.OutFile).records = 3 := by
  decide

/-- A produced candidate was untried and passed the skip-word filter. -/
theorem candAt_spec (skips : List String) (tried : List ℕ)
    (options : List String) (i : ℕ) (p : ℕ × String)
    (h : candAt skips tried options i = some p) :
    p.1 = i ∧ p.1 ∉ tried ∧
    skips.any (fun w => pyIn w (lowerStr p.2)) = false := by
  by_cases ht : i ∈ tried
  · simp [candAt, ht] at h
  · rw [candAt, if_neg ht] at h
    cases hg : options.get? i with
    | none => rw [hg] at h; cases h
    | some s =>
      rw [hg] at h
      simp only at h
      rcases hd : (pyStrip s).data with _ | ⟨c, rest⟩ <;> rw [hd] at h <;>
        dsimp only at h
      · cases h
      · by_cases hdig : c.isDigit
        · rw [if_neg (by simp [hdig])] at h
          by_cases hskip : skips.any (fun w => pyIn w (lowerStr (pyStrip s))) = true
          · rw [if_pos hskip] at h; cases h
          · rw [if_neg hskip] at h
            injection h with h
            subst h
            exact ⟨rfl, ht, Bool.not_eq_true _ |>.mp hskip⟩
        · rw [if_pos (by simp [hdig])] at h; cases h

/-- Members of the shared residential filter are untried and skip-word
free. -/
theorem residentialFilter_spec (skips : List String) (options : List String)
    (start : ℕ) (tried : List ℕ) (p : ℕ × String)
    (h : p ∈ residentialFilter skips options start tried) :
    p.1 ∉ tried ∧ ∀ w ∈ skips, pyIn w (lowerStr p.2) = false := by
  rw [residentialFilter, List.mem_filterMap] at h
  obtain ⟨i, _, hf⟩ := h
  obtain ⟨_, hnt, hany⟩ := candAt_spec skips tried options i p hf
  refine ⟨hnt, fun w hw => ?_⟩
  have := List.any_eq_false.mp hany w hw
  exact Bool.not_eq_true _ |>.mp this

/-- Claim C7 (amended): the E.ON and OVO `get_valid_addresses` never emit a
candidate whose index is tried or whose text contains a skip word; the
British Gas inline selector takes no tried set, and only when its skip-word
filter leaves at least one index is its output guaranteed skip-word free —
its fallback returns the first ten in-range indices unfiltered. -/
theorem C7_generator_filters :
    (∀ (options : List String) (start : ℕ) (tried : List ℕ) (p : ℕ × String),
      p ∈ EON.get_valid_addresses options start tried →
      p.1 ∉ tried ∧ ∀ w ∈ EON.skip_words, pyIn w (lowerStr p.2) = false) ∧
    (∀ (options : List String) (start : ℕ) (tried : List ℕ) (p : ℕ × String),
      p ∈ OVO.get_valid_addresses options start tried →
      p.1 ∉ tried ∧ ∀ w ∈ OVO.skip_words, pyIn w (lowerStr p.2) = false) ∧
    (∀ (options : List String) (start i : ℕ) (s : String),
      BG.filtered_indices options start ≠ [] →
      i ∈ BG.good_indices options start →
      options.get? i = some s →
      ∀ w ∈ BG.skip_words, pyIn w (lowerStr s) = false) := by
  refine ⟨fun options start tried p hp =>
            residentialFilter_spec EON.skip_words options start tried p hp,
          fun options start tried p hp =>
            residentialFilter_spec OVO.skip_words options start tried p hp,
          fun options start i s hne hi hg w hw => ?_⟩
  have hEmpty : (BG.filtered_indices options start).isEmpty = false := by
    cases hE : (BG.filtered_indices options start).isEmpty
    · rfl
    · exact absurd (List.isEmpty_iff.mp hE) hne
  rw [BG.good_indices, hEmpty] at hi
  simp only [Bool.false_eq_true, if_false] at hi
  rw [BG.filtered_indices, List.mem_filter] at hi
  have hpred := hi.2
  rw [hg] at hpred
  have hpred' : (BG.skip_words.any fun w => pyIn w (lowerStr s)) = false :=
    Bool.not_eq_true _ |>.mp (of_decide_eq_true hpred)
  have := List.any_eq_false.mp hpred' w hw
  exact Bool.not_eq_true _ |>.mp this

/-- Witness for C7: on the option list `["hdr", "10 Main St"]` with start 1
and empty tried set, the E.ON generator emits `(1, "10 Main St")`, and the
theorem yields that its index is untried and its text skip-word free. -/
theorem C7_witness :
    (1, "10 Main St") ∈ EON.get_valid_addresses ["hdr", "10 Main St"] 1 [] ∧
    ((1, "10 Main St").1 ∉ ([] : List ℕ) ∧
      ∀ w ∈ EON.skip_words, pyIn w (lowerStr (1, "10 Main St").2) = false) :=
  ⟨by decide,
   C7_generator_filters.1 ["hdr", "10 Main St"] 1 [] (1, "10 Main St") (by decide)⟩

/-- Counterexample for C7 as stated: when every option contains a skip word,
the British Gas fallback returns all in-range indices, including index 0
whose text contains the skip word `flat`. -/
theorem C7_counterexample :
    BG.good_indices ["Flat 1", "Flat 2"] 0 = [0, 1] ∧
    "flat" ∈ BG.skip_words ∧
    pyIn "flat" (lowerStr "Flat 1") = true := by
  decide

/-- A value returned by the filtered first-match loop lies strictly inside
the range it was filtered against. -/
theorem firstInRange_spec :
    ∀ (pats : List RE) (t : String) (lo hi : Dec) (v : Dec),
      SP.firstInRange pats t lo hi = some v →
      Dec.ltB lo v = true ∧ Dec.ltB v hi = true := by
  intro pats
  induction pats with
  | nil => intro t lo hi v h; cases h
  | cons p rest ih =>
    intro t lo hi v h
    rw [SP.firstInRange] at h
    cases hr : research p t with
    | none => rw [hr] at h; exact ih t lo hi v h
    | some caps =>
      rw [hr] at h
      cases caps with
      | nil => exact ih t lo hi v h
      | cons c more =>
        dsimp only at h
        by_cases hc : (Dec.ltB lo (pyFloat c) && Dec.ltB (pyFloat c) hi) = true
        · rw [if_pos (by simpa using hc)] at h
          injection h with h
          subst h
          exact Bool.and_eq_true _ _ |>.mp hc
        · rw [if_neg (by simpa using hc)] at h
          exact ih t lo hi v h

/-- Claim C4 (amended): the two `validate_rates` functions only warn — a
non-empty SP rates dict is appended unchanged even when validation fails,
and an Octopus quote is emitted even when its value triggers a warning — but
SP's `extract_tariff_rates` applies its ranges as hard filters during
extraction: any stored electricity unit rate lies in (10, 50), electricity
standing charge in (20, 80), gas unit rate in (3, 20) and gas standing
charge in (20, 50); a matched value outside these ranges is dropped, not
returned. -/
theorem C4_validation_warns_extraction_filters :
    (∀ r : SP.Rates, SP.nonempty r = true → SP.stepFinal r = ([r], none)) ∧
    (∀ (t : String) (v : Dec),
      (SP.extract_tariff_rates t).elec_unit_rate_p = some v →
      Dec.ltB (Dec.ofN 10) v = true ∧ Dec.ltB v (Dec.ofN 50) = true) ∧
    (∀ (t : String) (v : Dec),
      (SP.extract_tariff_rates t).elec_standing_p = some v →
      Dec.ltB (Dec.ofN 20) v = true ∧ Dec.ltB v (Dec.ofN 80) = true) ∧
    (∀ (t : String) (v : Dec),
      (SP.extract_tariff_rates t).gas_unit_rate_p = some v →
      Dec.ltB (Dec.ofN 3) v = true ∧ Dec.ltB v (Dec.ofN 20) = true) ∧
    (∀ (t : String) (v : Dec),
      (SP.extract_tariff_rates t).gas_standing_p = some v →
      Dec.ltB (Dec.ofN 20) v = true ∧ Dec.ltB v (Dec.ofN 50) = true) ∧
    (SP.validate_rates ⟨none, none, some ⟨55, 0⟩, none, none, none⟩ = false ∧
     SP.stepFinal ⟨none, none, some ⟨55, 0⟩, none, none, none⟩ =
       ([⟨none, none, some ⟨55, 0⟩, none, none, none⟩], none)) ∧
    (OCT.validate_rates ⟨some ⟨200, 0⟩, none, none, none⟩ = false ∧
     OCT.emit ⟨some ⟨200, 0⟩, none, none, none⟩ = true) := by
  refine ⟨fun r h => by simp [SP.stepFinal, h],
          fun t v h => ?_, fun t v h => ?_, fun t v h => ?_, fun t v h => ?_,
          by decide, by decide⟩ <;>
    exact firstInRange_spec _ _ _ _ v (by simpa [SP.extract_tariff_rates] using h)

/-- Witness for C4: a 55p electricity unit rate makes SP's validation warn,
and the theorem still yields that the rates dict is appended unchanged to a
successful result. -/
theorem C4_witness :
    SP.nonempty ⟨none, none, some ⟨55, 0⟩, none, none, none⟩ = true ∧
    SP.stepFinal ⟨none, none, some ⟨55, 0⟩, none, none, none⟩ =
      ([⟨none, none, some ⟨55, 0⟩, none, none, none⟩], none) :=
  ⟨by decide,
   C4_validation_warns_extraction_filters.1
     ⟨none, none, some ⟨55, 0⟩, none, none, none⟩ (by decide)⟩

/-- Counterexample for C4 as stated: on the page text
`Electricity Unit rate 65.00 p per kWh`, SP's extraction patterns match the
value 65.00 — outside the claimed plausible range — yet the extracted quote
is empty: the out-of-range value was dropped during extraction instead of
being returned with a warning. -/
theorem C4_counterexample :
    SP.elec_unit_patterns.map
      (fun p => research p
        (SP.sectionText SP.sec_elec_re "Electricity Unit rate 65.00 p per kWh")) =
      [some ["65.00"], some ["65.00"], none, some ["65.00"]] ∧
    pyFloat "65.00" = ⟨6500, 2⟩ ∧
    SP.extract_tariff_rates "Electricity Unit rate 65.00 p per kWh" =
      ⟨none, none, none, none, none, none⟩ := by
  decide

/-- Members of `takeThrough` come from the underlying list. -/
theorem takeThrough_subset (p : α → Bool) :
    ∀ (l : List α) (x : α), x ∈ takeThrough p l → x ∈ l := by
  intro l
  induction l with
  | nil => intro x hx; cases hx
  | cons a t ih =>
    intro x hx
    rw [takeThrough] at hx
    by_cases hp : p a
    · rw [if_pos hp] at hx
      rcases List.mem_singleton.mp hx with h
      exact h ▸ List.mem_cons_self a t
    · rw [if_neg hp] at hx
      rcases List.mem_cons.mp hx with h | h
      · exact h ▸ List.mem_cons_self a t
      · exact List.mem_cons_of_mem a (ih x h)

/-- In the threaded retry loop, every selection of every attempt avoids the
tried set the loop started from, provided the per-attempt step is fresh and
growing. -/
theorem threadSel_not_mem (sel : SelStep) (succ : ℕ → Bool) (maxA : ℕ)
    (Hfresh : ∀ a tr x, x ∈ (sel a tr).1 → x ∉ tr)
    (Hgrow : ∀ a tr x, x ∈ tr ∨ x ∈ (sel a tr).1 → x ∈ (sel a tr).2) :
    ∀ (fuel a : ℕ) (tr : List ℕ) (s : List ℕ),
      s ∈ threadSel sel succ maxA a fuel tr → ∀ x ∈ s, x ∉ tr := by
  intro fuel
  induction fuel with
  | zero => intro a tr s hs; cases hs
  | succ fuel ih =>
    intro a tr s hs x hx
    rw [threadSel] at hs
    by_cases hsucc : succ a = true
    · rw [if_pos hsucc] at hs
      rcases List.mem_singleton.mp hs with h
      exact Hfresh a tr x (h ▸ hx)
    · rw [if_neg hsucc] at hs
      by_cases hlt : a < maxA
      · rw [if_pos hlt] at hs
        rcases List.mem_cons.mp hs with h | h
        · exact Hfresh a tr x (h ▸ hx)
        · intro hmem
          exact ih (a + 1) (sel a tr).2 s h x hx (Hgrow a tr x (Or.inl hmem))
      · rw [if_neg hlt] at hs
        rcases List.mem_singleton.mp hs with h
        exact Hfresh a tr x (h ▸ hx)

/-- In the threaded retry loop, selections of distinct attempts are
disjoint. -/
theorem threadSel_disjoint (sel : SelStep) (succ : ℕ → Bool) (maxA : ℕ)
    (Hfresh : ∀ a tr x, x ∈ (sel a tr).1 → x ∉ tr)
    (Hgrow : ∀ a tr x, x ∈ tr ∨ x ∈ (sel a tr).1 → x ∈ (sel a tr).2) :
    ∀ (fuel a : ℕ) (tr : List ℕ) (j k : ℕ) (sj sk : List ℕ),
      j < k →
      (threadSel sel succ maxA a fuel tr)[j]? = some sj →
      (threadSel sel succ maxA a fuel tr)[k]? = some sk →
      ∀ x ∈ sj, x ∉ sk := by
  intro fuel
  induction fuel with
  | zero => intro a tr j k sj sk _ hj _; rw [threadSel] at hj; cases hj
  | succ fuel ih =>
    intro a tr j k sj sk hjk hj hk x hx
    rw [threadSel] at hj hk
    by_cases hsucc : succ a = true
    · rw [if_pos hsucc] at hk
      obtain ⟨k', rfl⟩ := Nat.exists_eq_add_of_lt hjk
      rw [show j + k' + 1 = k' + j + 1 by omega] at hk
      simp [List.getElem?_cons_succ] at hk
    · rw [if_neg hsucc] at hj hk
      by_cases hlt : a < maxA
      · rw [if_pos hlt] at hj hk
        obtain ⟨k', rfl⟩ := Nat.exists_eq_add_of_lt hjk
        cases j with
        | zero =>
          rw [List.getElem?_cons_zero] at hj
          injection hj with hj
          subst hj
          rw [show 0 + k' + 1 = k' + 1 by omega, List.getElem?_cons_succ] at hk
          have hmem : sk ∈ threadSel sel succ maxA (a + 1) fuel (sel a tr).2 := by
            exact List.getElem?_mem hk
          intro hxk
          exact threadSel_not_mem sel succ maxA Hfresh Hgrow fuel (a + 1)
            (sel a tr).2 sk hmem x hxk (Hgrow a tr x (Or.inr hx))
        | succ j' =>
          rw [List.getElem?_cons_succ] at hj
          rw [show j' + 1 + k' + 1 = (j' + k' + 1) + 1 by omega,
              List.getElem?_cons_succ] at hk
          exact ih (a + 1) (sel a tr).2 j' (j' + k' + 1) sj sk (by omega) hj hk x hx
      · rw [if_neg hlt] at hk
        obtain ⟨k', rfl⟩ := Nat.exists_eq_add_of_lt hjk
        rw [show j + k' + 1 = k' + j + 1 by omega] at hk
        simp [List.getElem?_cons_succ] at hk

/-- The E.ON selection step never selects a tried index. -/
theorem eonSelStep_fresh (opts : ℕ → List String) (start : ℕ)
    (works : ℕ → ℕ → Bool) (a : ℕ) (tr : List ℕ) (x : ℕ)
    (hx : x ∈ (eonSelStep opts start works a tr).1) : x ∉ tr := by
  have h1 : x ∈ ((EON.get_valid_addresses (opts a) start tr).map Prod.fst).take 10 :=
    takeThrough_subset (works a) _ x hx
  have h2 := List.take_subset 10 _ h1
  rw [List.mem_map] at h2
  obtain ⟨p, hp, hpx⟩ := h2
  have := (residentialFilter_spec EON.skip_words (opts a) start tr p hp).1
  exact hpx ▸ this

/-- The OVO keyboard pick avoids the tried set. -/
theorem pickIndex_not_mem (base : ℕ) (tried : List ℕ) :
    OVO.pickIndex base tried ∉ tried :=
  Nat.find_spec (OVO.exists_untried base tried)

/-- The meter-retry picks avoid the tried set they started from. -/
theorem picksAux_fresh (start : ℕ) :
    ∀ (fuel r : ℕ) (tr : List ℕ) (x : ℕ),
      x ∈ (OVO.picksAux start r fuel tr).1 → x ∉ tr := by
  intro fuel
  induction fuel with
  | zero => intro r tr x hx; cases hx
  | succ fuel ih =>
    intro r tr x hx
    rw [OVO.picksAux] at hx
    rcases List.mem_cons.mp hx with h | h
    · exact h ▸ pickIndex_not_mem (start + r) tr
    · intro hmem
      exact ih (r + 1) (tr ++ [OVO.pickIndex (start + r) tr]) x h
        (List.mem_append.mpr (Or.inl hmem))

/-- The meter-retry loop returns the tried set extended by its picks. -/
theorem picksAux_tried (start : ℕ) :
    ∀ (fuel r : ℕ) (tr : List ℕ),
      (OVO.picksAux start r fuel tr).2 = tr ++ (OVO.picksAux start r fuel tr).1 := by
  intro fuel
  induction fuel with
  | zero => intro r tr; simp [OVO.picksAux]
  | succ fuel ih =>
    intro r tr
    rw [OVO.picksAux]
    dsimp only
    rw [ih (r + 1) (tr ++ [OVO.pickIndex (start + r) tr])]
    simp

/-- The OVO attempt returns the tried set extended by its picks. -/
theorem ovoSelStep_grow (start : ℕ) (retries : ℕ → ℕ) (a : ℕ) (tr : List ℕ) :
    (ovoSelStep start retries a tr).2 = tr ++ (ovoSelStep start retries a tr).1 := by
  rw [ovoSelStep, OVO.attemptPicks]
  dsimp only
  rw [picksAux_tried]
  simp

/-- The OVO attempt never picks a tried index. -/
theorem ovoSelStep_fresh (start : ℕ) (retries : ℕ → ℕ) (a : ℕ) (tr : List ℕ)
    (x : ℕ) (hx : x ∈ (ovoSelStep start retries a tr).1) : x ∉ tr := by
  rw [ovoSelStep, OVO.attemptPicks] at hx
  dsimp only at hx
  rcases List.mem_cons.mp hx with h | h
  · exact h ▸ pickIndex_not_mem start tr
  · intro hmem
    exact picksAux_fresh start (min (retries a) 5) 1 (tr ++ [OVO.pickIndex start tr])
      x h (List.mem_append.mpr (Or.inl hmem))

/-- Claim C9 (amended): the tried-address set of one task is created once by
the retry controller, threaded through every attempt, and only ever grows;
in the E.ON and OVO controllers an index selected in one attempt is never
selected again in any later attempt of the same task, while the Scottish
Power primary selection grows the set on every attempt but its fallback
path can re-select index 1 even when it is already tried. -/
theorem C9_tried_set_threading :
    (∀ (opts : ℕ → List String) (start : ℕ) (works : ℕ → ℕ → Bool)
       (succ : ℕ → Bool) (maxA j k : ℕ) (sj sk : List ℕ),
      j < k →
      (eonRetrySelections opts start works succ maxA)[j]? = some sj →
      (eonRetrySelections opts start works succ maxA)[k]? = some sk →
      ∀ x ∈ sj, x ∉ sk) ∧
    (∀ (start : ℕ) (retries : ℕ → ℕ) (succ : ℕ → Bool) (maxA j k : ℕ)
       (sj sk : List ℕ),
      j < k →
      (ovoRetrySelections start retries succ maxA)[j]? = some sj →
      (ovoRetrySelections start retries succ maxA)[k]? = some sk →
      ∀ x ∈ sj, x ∉ sk) ∧
    (∀ (options : List String) (start : ℕ) (tried : List ℕ),
      (SP.selectFirstAddress options start tried).2 =
        tried ++ [(SP.selectFirstAddress options start tried).1]) := by
  refine ⟨fun opts start works succ maxA j k sj sk hjk hj hk => ?_,
          fun start retries succ maxA j k sj sk hjk hj hk => ?_,
          fun options start tried => ?_⟩
  · exact threadSel_disjoint (eonSelStep opts start works) succ maxA
      (fun a tr x hx => eonSelStep_fresh opts start works a tr x hx)
      (fun a tr x hx => by
        rw [eonSelStep]
        exact List.mem_append.mpr hx)
      maxA 1 [] j k sj sk hjk hj hk
  · exact threadSel_disjoint (ovoSelStep start retries) succ maxA
      (fun a tr x hx => ovoSelStep_fresh start retries a tr x hx)
      (fun a tr x hx => by
        rw [ovoSelStep_grow]
        exact List.mem_append.mpr hx)
      maxA 1 [] j k sj sk hjk hj hk
  · rw [SP.selectFirstAddress]
    cases hf : List.find? (fun i =>
        decide (i ∉ tried) &&
        match options.get? i with
        | some s => SP.okText s
        | none => false)
      (List.range' start (min (options.length - start) 15)) <;>
      simp [hf]

/-- Witness for C9: on a concrete E.ON task whose first attempt visits
indices 1, 2 and 3 and fails, the second attempt selects nothing, and the
theorem yields that no index of the first attempt recurs in the second. -/
theorem C9_witness :
    (eonRetrySelections (fun _ => ["h", "10 A", "11 B", "12 C"]) 1
      (fun _ _ => false) (fun _ => false) 3)[0]? = some [1, 2, 3] ∧
    (eonRetrySelections (fun _ => ["h", "10 A", "11 B", "12 C"]) 1
      (fun _ _ => false) (fun _ => false) 3)[1]? = some [] ∧
    ∀ x ∈ [1, 2, 3], x ∉ ([] : List ℕ) :=
  ⟨by decide, by decide,
   C9_tried_set_threading.1 (fun _ => ["h", "10 A", "11 B", "12 C"]) 1
     (fun _ _ => false) (fun _ => false) 3 0 1 [1, 2, 3] []
     (by decide) (by decide) (by decide)⟩

/-- Counterexample for C9 as stated: with options `["X", "1 Main St"]` and
start index 1, the Scottish Power task selects index 1 in attempt 1 and
marks it tried; every later attempt finds no untried valid address and the
fallback re-selects index 1, so the selections of three failing attempts are
`[1, 1, 1]` — a tried index is selected again in a later attempt. -/
theorem C9_counterexample :
    SP.retrySelections (fun _ => ["X", "1 Main St"]) 1 (fun _ => false) 3 =
      [1, 1, 1] ∧
    SP.selectFirstAddress ["X", "1 Main St"] 1 [] = (1, [1]) ∧
    SP.selectFirstAddress ["X", "1 Main St"] 1 [1] = (1, [1, 1]) := by
  decide

/-- Claim C2 (amended): in the British Gas journey a quote is appended to a
successful result only with both unit rates truthy, and a non-empty tariffs
list always comes with a null error; in the E.ON journey a quote is appended
whenever the extraction dict is non-empty — which only guarantees at least
one extracted field, not a unit rate — again with a null error. -/
theorem C2_emission_invariant (t : String) :
    (∀ q ∈ (BG.step8 t).1,
        qTruthy q.gas_unit_rate_p = true ∧ qTruthy q.elec_unit_rate_p = true) ∧
    ((BG.step8 t).1 ≠ [] → (BG.step8 t).2 = none) ∧
    (∀ q ∈ (EON.step9 t).1, EON.nonempty q = true) ∧
    ((EON.step9 t).1 ≠ [] → (EON.step9 t).2 = none) := by
  refine ⟨fun q hq => ?_, fun hne => ?_, fun q hq => ?_, fun hne => ?_⟩
  · by_cases hc : (qTruthy (BG.extract_tariff_rates t).gas_unit_rate_p &&
        qTruthy (BG.extract_tariff_rates t).elec_unit_rate_p) = true
    · simp only [BG.step8, hc, if_true, List.mem_singleton] at hq
      subst hq
      exact ⟨(Bool.and_eq_true _ _ |>.mp hc).1, (Bool.and_eq_true _ _ |>.mp hc).2⟩
    · simp [BG.step8, hc] at hq
  · by_cases hc : (qTruthy (BG.extract_tariff_rates t).gas_unit_rate_p &&
        qTruthy (BG.extract_tariff_rates t).elec_unit_rate_p) = true
    · simp [BG.step8, hc]
    · simp [BG.step8, hc] at hne
  · by_cases hc : EON.nonempty (EON.extract_rates t) = true
    · simp only [EON.step9, hc, if_true, List.mem_singleton] at hq
      subst hq
      exact hc
    · simp [EON.step9, hc] at hq
  · by_cases hc : EON.nonempty (EON.extract_rates t) = true
    · simp [EON.step9, hc]
    · simp [EON.step9, hc] at hne

set_option maxRecDepth 40000 in
/-- Witness for C2: on the page text `Next Fixed 12m v1` the E.ON journey
emits a tariff, and the theorem yields that the emitted quote has at least
one extracted field. -/
theorem C2_witness :
    (⟨some "Next Fixed 12m v1", none, none, none, none, none, none, none⟩ : EON.Rates) ∈
      (EON.step9 "Next Fixed 12m v1").1 ∧
    EON.nonempty ⟨some "Next Fixed 12m v1", none, none, none, none, none, none, none⟩ = true :=
  ⟨by decide,
   (C2_emission_invariant "Next Fixed 12m v1").2.2.1
     ⟨some "Next Fixed 12m v1", none, none, none, none, none, none, none⟩ (by decide)⟩

set_option maxRecDepth 40000 in
/-- Counterexample for C2 as stated: the page text `Next Fixed 12m v1` makes
the E.ON extraction produce a dict holding only a tariff name — no
electricity, gas, day or night unit rate — and the journey still appends it
to the tariffs list of a successful result with a null error. -/
theorem C2_counterexample :
    EON.step9 "Next Fixed 12m v1" =
      ([⟨some "Next Fixed 12m v1", none, none, none, none, none, none, none⟩], none) ∧
    ∀ q ∈ (EON.step9 "Next Fixed 12m v1").1,
      q.elec_unit_rate_p = none ∧ q.gas_unit_rate_p = none ∧
      q.elec_day_rate_p = none ∧ q.elec_night_rate_p = none := by
  decide

/-- Claim C10 (amended): the British Gas journey marks a result successful
iff the extraction produced a truthy (present and non-zero) gas unit rate
and a truthy electricity unit rate — a `0.0` rate counts as missing; in
every other case the quote is discarded and the error is exactly
`Could not extract rates`. -/
theorem C10_bg_success_iff_truthy_rates (t : String) :
    ((BG.step8 t).1 ≠ [] ↔
      qTruthy (BG.extract_tariff_rates t).gas_unit_rate_p = true ∧
      qTruthy (BG.extract_tariff_rates t).elec_unit_rate_p = true) ∧
    ((BG.step8 t).1 = [] → (BG.step8 t).2 = some "Could not extract rates") ∧
    ((BG.step8 t).1 ≠ [] →
      (BG.step8 t).1 = [BG.extract_tariff_rates t] ∧ (BG.step8 t).2 = none) := by
  by_cases hc : (qTruthy (BG.extract_tariff_rates t).gas_unit_rate_p &&
      qTruthy (BG.extract_tariff_rates t).elec_unit_rate_p) = true
  · have h2 := Bool.and_eq_true _ _ |>.mp hc
    refine ⟨⟨fun _ => h2, fun _ => by simp [BG.step8, hc]⟩, fun he => ?_, fun _ => ?_⟩
    · simp [BG.step8, hc] at he
    · simp [BG.step8, hc]
  · have h2 : ¬ (qTruthy (BG.extract_tariff_rates t).gas_unit_rate_p = true ∧
        qTruthy (BG.extract_tariff_rates t).elec_unit_rate_p = true) := by
      intro hand
      exact hc (by simp [hand.1, hand.2])
    refine ⟨⟨fun hne => absurd ?_ hne, fun hand => absurd hand h2⟩,
            fun _ => by simp [BG.step8, hc], fun hne => ?_⟩
    · simp [BG.step8, hc]
    · exact absurd (by simp [BG.step8, hc]) hne

set_option maxRecDepth 40000 in
/-- Witness for C10: on a page text whose gas unit rate reads `0`, the
tariffs list is empty and the theorem yields the exact error string. -/
theorem C10_witness :
    (BG.step8 "Electricity tariff costs Unit rate 27.5 p per kWh Standing charge 45.1 p per day Gas tariff costs Unit rate 0 p per kWh Standing charge 30 p per day").1 = [] ∧
    (BG.step8 "Electricity tariff costs Unit rate 27.5 p per kWh Standing charge 45.1 p per day Gas tariff costs Unit rate 0 p per kWh Standing charge 30 p per day").2 =
      some "Could not extract rates" :=
  ⟨by decide,
   (C10_bg_success_iff_truthy_rates
     "Electricity tariff costs Unit rate 27.5 p per kWh Standing charge 45.1 p per day Gas tariff costs Unit rate 0 p per kWh Standing charge 30 p per day").2.1
     (by decide)⟩

set_option maxRecDepth 40000 in
/-- Counterexample for C10 as stated: a page text whose gas section reads
`Unit rate 0 p per kWh` makes the extraction produce both unit rates
(gas `0`, electricity `27.5`), yet the journey discards the quote and
reports `Could not extract rates` — success is not equivalent to both rates
having been produced. -/
theorem C10_counterexample :
    (BG.extract_tariff_rates "Electricity tariff costs Unit rate 27.5 p per kWh Standing charge 45.1 p per day Gas tariff costs Unit rate 0 p per kWh Standing charge 30 p per day").gas_unit_rate_p = some ⟨0, 0⟩ ∧
    (BG.extract_tariff_rates "Electricity tariff costs Unit rate 27.5 p per kWh Standing charge 45.1 p per day Gas tariff costs Unit rate 0 p per kWh Standing charge 30 p per day").elec_unit_rate_p = some ⟨275, 1⟩ ∧
    BG.step8 "Electricity tariff costs Unit rate 27.5 p per kWh Standing charge 45.1 p per day Gas tariff costs Unit rate 0 p per kWh Standing charge 30 p per day" =
      ([], some "Could not extract rates") := by
  decide

set_option maxRecDepth 40000 in
/-- Claim C8 (code bug): on the synthetic page text of the claim, the
British Gas extraction returns the four rates `27.50`, `45.10`, `6.20`,
`30.00` (each `Dec` value is `mant / 10 ^ exp`), but no exit fee — the
source's exit-fee patterns literally contain the mojibake sequence `Â£`
(U+00C2 U+00A3), which never matches the real `£` of the page text. -/
theorem C8_synthetic_page_extraction :
    BG.extract_tariff_rates "Electricity tariff costs ... Unit rate 27.50 p per kWh ... Standing charge 45.10 p per day ... Gas tariff costs ... Unit rate 6.20 p per kWh ... Standing charge 30.00 p per day ... Exit fee: £50 per fuel" =
      { gas_unit_rate_p := some ⟨620, 2⟩, gas_standing_p := some ⟨3000, 2⟩,
        elec_unit_rate_p := some ⟨2750, 2⟩, elec_standing_p := some ⟨4510, 2⟩,
        tariff_name := none, exit_fee := none } ∧
    BG.findExitFee "Exit fee: Â£50 per fuel" = some "Â£50 per fuel" := by
  decide

/-- Claim C5 (amended): the British Gas scraper opens a fresh stealth context
for every attempt (sessions strictly increasing allocation numbers, pairwise
distinct), while the E.ON retry controller passes the one driver created per
batch to every attempt — the same session object for all attempts of a
task. -/
theorem C5_sessions_bg_fresh_eon_reused (driver σ0 : ℕ) (succ : ℕ → Bool)
    (jitter : ℕ → ℕ) :
    (EON.scrape_with_retry driver succ jitter 3).sessions.all (· = driver) = true ∧
    (BG.scrape_with_retry succ 3 σ0).sessions =
      List.range' σ0 (BG.scrape_with_retry succ 3 σ0).attempts ∧
    (BG.scrape_with_retry succ 3 σ0).sessions.Pairwise (· ≠ ·) := by
  cases h1 : succ 1 <;> cases h2 : succ 2 <;> cases h3 : succ 3 <;>
    simp [EON.scrape_with_retry, EON.retryAux, BG.scrape_with_retry, BG.retryAux,
          h1, h2, h3, List.range'] <;> omega

/-- Counterexample for C5 as stated: a task whose attempts all fail runs
three E.ON attempts on the very same session (the batch driver), so the
session of attempt 2 is exactly the session object of attempt 1 — sessions
are reused across attempts. -/
theorem C5_counterexample :
    (EON.scrape_with_retry 7 (fun _ => false) (fun _ => 0) 3).sessions = [7, 7, 7] ∧
    ¬ (EON.scrape_with_retry 7 (fun _ => false) (fun _ => 0) 3).sessions.Pairwise (· ≠ ·) := by
  decide

/-- Claim C6: with base 30 and `max_attempts = 3`, both retry controllers
run at most three attempts, sleep `30 * 2 ^ (attempt - 1)` seconds plus the
jitter draw (E.ON: `randint(0, 30)`; British Gas: no jitter term) after each
failed attempt except the last one, and sleep exactly once per non-final
attempt — so the backoff sequence is `[30(+j), 60(+j)]` and no sleep follows
the final attempt. -/
theorem C6_backoff_sequence (driver σ0 : ℕ) (succ : ℕ → Bool) (jitter : ℕ → ℕ) :
    (EON.scrape_with_retry driver succ jitter 3).attempts ≤ 3 ∧
    (BG.scrape_with_retry succ 3 σ0).attempts ≤ 3 ∧
    (EON.scrape_with_retry driver succ jitter 3).sleeps =
      (List.range ((EON.scrape_with_retry driver succ jitter 3).attempts - 1)).map
        (fun k => 30 * 2 ^ k + jitter (k + 1)) ∧
    (BG.scrape_with_retry succ 3 σ0).sleeps =
      (List.range ((BG.scrape_with_retry succ 3 σ0).attempts - 1)).map
        (fun k => 30 * 2 ^ k) ∧
    ((List.range ((EON.scrape_with_retry driver succ jitter 3).attempts - 1)).all
      (fun k => ¬ succ (k + 1)) = true) ∧
    ((List.range ((BG.scrape_with_retry succ 3 σ0).attempts - 1)).all
      (fun k => ¬ succ (k + 1)) = true) := by
  cases h1 : succ 1 <;> cases h2 : succ 2 <;> cases h3 : succ 3 <;>
    simp [EON.scrape_with_retry, EON.retryAux, BG.scrape_with_retry, BG.retryAux,
          h1, h2, h3, List.range_succ]

end SmartSwitch
